import Mathlib

/-!
Shallow embedding of the data-acquisition core of `src/website/app_simple.py`
(the `JolpicaAPIClient` and `F1DataManager` classes), together with theorems
settling the specification claims about it.

Conventions of the embedding:
* Python `datetime.date` values are `Date` (year/month/day naturals compared
  lexicographically, which matches `datetime.date` ordering on valid dates).
* Fallible Python operations (`strptime`, `fromisoformat`, `int(...)`) are
  `Option`-valued; a `none` marks the `ValueError` the Python call would raise.
* A method body wrapped in `try/except` is a total function whose exceptional
  branches are folded into the value the `except` clause returns.
* Network and clock effects are passed explicitly: the current time is a `Nat`
  of seconds, and the transport outcome of an HTTP GET is a `NetOutcome` value.
-/

/-- Calendar date, the embedding of Python `datetime.date`. -/
structure Date where
  year : Nat
  month : Nat
  day : Nat
deriving DecidableEq, Repr

/-- Strict order on dates: lexicographic on (year, month, day), which is how
`datetime.date` comparison behaves. -/
def dateLtB (a b : Date) : Bool :=
  decide (a.year < b.year) ||
    (decide (a.year = b.year) &&
      (decide (a.month < b.month) ||
        (decide (a.month = b.month) && decide (a.day < b.day))))

/-- Non-strict order on dates (`a <= b` in Python). -/
def dateLeB (a b : Date) : Bool :=
  dateLtB a b || decide (a = b)

/-- Gregorian leap-year test, as used by `datetime` for day-of-month validation. -/
def isLeapYear (y : Nat) : Bool :=
  (y % 4 == 0 && y % 100 != 0) || y % 400 == 0

/-- Number of days of a month, as validated by the `datetime.date` constructor. -/
def daysInMonth (y m : Nat) : Nat :=
  if m = 2 then (if isLeapYear y then 29 else 28)
  else if m = 4 ∨ m = 6 ∨ m = 9 ∨ m = 11 then 30
  else 31

/-- Read exactly `n` decimal digits from the front of the character list,
accumulating their value; `none` if a non-digit (or end of input) is hit. -/
def readFixedDigits : Nat → Nat → List Char → Option (Nat × List Char)
  | 0, acc, cs => some (acc, cs)
  | _ + 1, _, [] => none
  | n + 1, acc, c :: cs =>
    if c.isDigit then readFixedDigits n (acc * 10 + (c.toNat - 48)) cs else none

/-- Read one or two decimal digits (maximal munch), as CPython `strptime`'s
`%m` / `%d` directives do. -/
def readUpTo2Digits : List Char → Option (Nat × List Char)
  | [] => none
  | [c] => if c.isDigit then some (c.toNat - 48, []) else none
  | c :: d :: cs =>
    if c.isDigit then
      if d.isDigit then some ((c.toNat - 48) * 10 + (d.toNat - 48), cs)
      else some (c.toNat - 48, d :: cs)
    else none

/-- Embedding of `datetime.strptime(s, '%Y-%m-%d').date()`: `%Y` is exactly four
digits, `%m` and `%d` are one or two digits, the whole string must be consumed,
and the `datetime.date` constructor validates the ranges (year at least 1,
month 1..12, day 1..days-in-month). `none` is the `ValueError` path. -/
def strptimeDate (s : String) : Option Date :=
  match readFixedDigits 4 0 s.data with
  | some (y, '-' :: r1) =>
    match readUpTo2Digits r1 with
    | some (m, '-' :: r2) =>
      match readUpTo2Digits r2 with
      | some (d, []) =>
        if 1 ≤ y ∧ 1 ≤ m ∧ m ≤ 12 ∧ 1 ≤ d ∧ d ≤ daysInMonth y m then
          some ⟨y, m, d⟩
        else none
      | _ => none
    | _ => none
  | _ => none

/-- Result of Python `datetime.fromisoformat`: a calendar date plus a
time of day (fractional seconds and the timezone offset are validated during
parsing but are irrelevant to `strftime('%H:%M')` output, so they are not
stored). -/
structure PyDateTime where
  date : Date
  hour : Nat
  minute : Nat
  second : Nat
deriving DecidableEq, Repr

/-- Parse the mandatory `YYYY-MM-DD` front of an ISO string (exactly ten
characters, two-digit month and day), returning the rest of the input. -/
def parseIsoDate (cs : List Char) : Option (Date × List Char) :=
  match readFixedDigits 4 0 cs with
  | some (y, '-' :: r1) =>
    match readFixedDigits 2 0 r1 with
    | some (m, '-' :: r2) =>
      match readFixedDigits 2 0 r2 with
      | some (d, rest) =>
        if 1 ≤ y ∧ 1 ≤ m ∧ m ≤ 12 ∧ 1 ≤ d ∧ d ≤ daysInMonth y m then
          some (⟨y, m, d⟩, rest)
        else none
      | _ => none
    | _ => none
  | _ => none

/-- Split a time string at the first `+` or `-`, the way
`datetime._parse_isoformat_time` separates the clock part from the
UTC-offset part. -/
def splitAtSign : List Char → List Char × Option (Char × List Char)
  | [] => ([], none)
  | c :: rest =>
    if c = '+' ∨ c = '-' then ([], some (c, rest))
    else
      let (a, b) := splitAtSign rest
      (c :: a, b)

/-- Parse `HH[:MM[:SS[.fff|.ffffff]]]` with two-digit components, consuming the
whole input, with the range validation done by the `datetime.time`
constructor (hour below 24, minute and second below 60). -/
def parseTimeComps (cs : List Char) : Option (Nat × Nat × Nat) :=
  match readFixedDigits 2 0 cs with
  | some (h, []) => if h ≤ 23 then some (h, 0, 0) else none
  | some (h, ':' :: r1) =>
    match readFixedDigits 2 0 r1 with
    | some (mi, []) => if h ≤ 23 ∧ mi ≤ 59 then some (h, mi, 0) else none
    | some (mi, ':' :: r2) =>
      match readFixedDigits 2 0 r2 with
      | some (se, []) =>
        if h ≤ 23 ∧ mi ≤ 59 ∧ se ≤ 59 then some (h, mi, se) else none
      | some (se, '.' :: fr) =>
        if (fr.length = 3 ∨ fr.length = 6) ∧ fr.all Char.isDigit ∧
            h ≤ 23 ∧ mi ≤ 59 ∧ se ≤ 59 then
          some (h, mi, se)
        else none
      | _ => none
    | _ => none
  | _ => none

/-- Validate the UTC-offset part after the sign: CPython accepts only the
lengths of `HH:MM`, `HH:MM:SS` and `HH:MM:SS.ffffff`, each component parsed and
range-checked like a clock time. -/
def parseTzComps (cs : List Char) : Option Unit :=
  if cs.length = 5 ∨ cs.length = 8 ∨ cs.length = 15 then
    (parseTimeComps cs).map (fun _ => ())
  else none

/-- Parse the time-of-day part of an ISO datetime string, including an optional
UTC offset introduced by `+` or `-`. -/
def parseIsoTime (tcs : List Char) : Option (Nat × Nat × Nat) :=
  match splitAtSign tcs with
  | (timecs, none) => parseTimeComps timecs
  | (timecs, some (_, tzcs)) =>
    match parseTimeComps timecs, parseTzComps tzcs with
    | some t, some _ => some t
    | _, _ => none

/-- Embedding of `datetime.fromisoformat`: the first ten characters must be a
valid `YYYY-MM-DD` date; an optional eleventh character (any separator) may be
followed by a time of day with optional offset. In particular a bare
time-of-day string such as `14:00:00+00:00` has no date part and fails
(`ValueError`), which is the behavior the claims about `_convert_to_ist`
turn on. -/
def fromisoformat (s : String) : Option PyDateTime :=
  match parseIsoDate s.data with
  | none => none
  | some (d, []) => some ⟨d, 0, 0, 0⟩
  | some (d, _sep :: tcs) =>
    (parseIsoTime tcs).map (fun t => ⟨d, t.1, t.2.1, t.2.2⟩)

/-- Python `str.replace('Z', '+00:00')`: every occurrence of the single
character `Z` is replaced. -/
def replaceZ (s : String) : String :=
  ⟨s.data.foldr
    (fun c acc =>
      if c = 'Z' then '+' :: '0' :: '0' :: ':' :: '0' :: '0' :: acc
      else c :: acc) []⟩

/-- Two-digit zero-padded rendering, as `strftime('%H')` / `strftime('%M')`. -/
def fmt2 (n : Nat) : String :=
  if n < 10 then "0" ++ toString n else toString n

/-- Embedding of `F1DataManager._convert_to_ist`: replace `Z` by `+00:00`,
parse with `fromisoformat` (the argument is replaced a second time, a no-op),
add a `timedelta` of 5 hours 30 minutes, and format `%H:%M`; any parse failure
is swallowed by the bare `except` and yields the default `"17:00"`. The day
carry of the timedelta addition is invisible to `%H:%M`, hence the modulus. -/
def _convert_to_ist (utc_time : String) : String :=
  let u := if utc_time.data.contains 'Z' then replaceZ utc_time else utc_time
  match fromisoformat (replaceZ u) with
  | none => "17:00"
  | some t =>
    let total := (t.hour * 60 + t.minute + 330) % 1440
    fmt2 (total / 60) ++ ":" ++ fmt2 (total % 60)

/-- Embedding of `F1DataManager._determine_race_status`: parse the race date
with `strptime` (`none` is the `ValueError` path) and compare it with the
current date. -/
def _determine_race_status (race_date : String) (today : Date) : Option String :=
  match strptimeDate race_date with
  | none => none
  | some rd =>
    some (if dateLtB today rd then "upcoming"
          else if rd = today then "live"
          else "completed")

/-! ## JolpicaAPIClient -/

/-- Transport-level outcome of the HTTP GET inside
`JolpicaAPIClient._make_request`. The four failure constructors are the
exceptions the code can see there: `requests` raises `Timeout` and
`ConnectionError` from `session.get`, `HTTPError` from `raise_for_status` on a
non-2xx status, and `JSONDecodeError` from `response.json()` on a malformed
body — all subclasses of `requests.exceptions.RequestException`, the class the
`except` clause catches. -/
inductive NetOutcome (α : Type) where
  | timeout
  | connectionError
  | httpError (status : Nat)
  | malformedBody
  | ok (payload : α)
deriving DecidableEq, Repr

/-- True on the four transport-failure outcomes. -/
def NetOutcome.isFailure : NetOutcome α → Bool
  | .ok _ => false
  | _ => true

/-- Embedding of `JolpicaAPIClient._get_cache_key`:
`f"{endpoint}_{int(time.time() / self.cache_ttl)}"`, with `time.time()` the
current time in seconds and the division truncating. -/
def _get_cache_key (endpoint : String) (now ttl : Nat) : String :=
  endpoint ++ "_" ++ toString (now / ttl)

/-- Association lookup in the cache dictionary (most recent insertion first,
matching Python dict key lookup in this insert-only usage). -/
def cacheLookup (k : String) : List (String × α) → Option α
  | [] => none
  | (k', v) :: rest => if k' = k then some v else cacheLookup k rest

/-- Embedding of `JolpicaAPIClient._make_request`. Inputs: the current cache,
the endpoint, the current time and TTL, and the transport outcome the network
would produce if a request were issued. Output: the returned value
(`none` embeds Python `None`), the cache after the call, and whether an
outbound HTTP request was issued. The `Except` layer records whether an
exception escapes the method: every branch is `.ok` because all four failure
outcomes are `RequestException`s, caught by the `except` clause which logs and
returns `None` without caching anything. -/
def _make_request (cache : List (String × α)) (endpoint : String)
    (now ttl : Nat) (net : NetOutcome α) :
    Except String (Option α × List (String × α) × Bool) :=
  let key := _get_cache_key endpoint now ttl
  match cacheLookup key cache with
  | some v => .ok (some v, cache, false)
  | none =>
    match net with
    | .ok payload => .ok (some payload, (key, payload) :: cache, true)
    | .timeout => .ok (none, cache, true)
    | .connectionError => .ok (none, cache, true)
    | .httpError _ => .ok (none, cache, true)
    | .malformedBody => .ok (none, cache, true)

/-- Number of outbound HTTP requests a `_make_request` call issued (0 or 1). -/
def issuedCount (r : Except String (Option α × List (String × α) × Bool)) : Nat :=
  match r with
  | .ok (_, _, true) => 1
  | _ => 0

/-! ## F1DataManager: race schedule -/

/-- One race object of the remote JSON payload, with the fields
`get_live_race_schedule` reads: `round`, `raceName`,
`Circuit.circuitName`, `Circuit.Location.country`, `date`, and the optional
`time` (read with `race.get('time', '12:00:00')`). -/
structure RemoteRace where
  round : String
  raceName : String
  circuitName : String
  country : String
  date : String
  time : Option String
deriving DecidableEq, Repr

/-- The `data['MRData']['RaceTable']['Races']` table of a well-formed remote
payload; `Option RacesPayload` at use sites embeds `_make_request` returning
`None` (or a falsy/`MRData`-less body). -/
structure RacesPayload where
  races : List RemoteRace
deriving DecidableEq, Repr

/-- Normalized race dictionary built by `get_live_race_schedule` (and, with
literal contents, by the fallback schedules). `location` is `some` only when
the `"location"` key is present, which `get_next_race` may add. -/
structure RaceRecord where
  round : Int
  name : String
  circuit : String
  country : String
  date : String
  time : String
  race_time_ist : String
  status : String
  location : Option String := none
deriving DecidableEq, Repr

/-- Nonempty all-digit string to a number. -/
def parseDigits (cs : List Char) : Option Nat :=
  if cs.isEmpty then none
  else if cs.all Char.isDigit then
    some (cs.foldl (fun acc c => acc * 10 + (c.toNat - 48)) 0)
  else none

/-- True on the characters Python `str.strip()` removes (the ASCII whitespace
relevant here; full Unicode whitespace does not occur in this data). -/
def pyIsSpace (c : Char) : Bool :=
  c = ' ' ∨ c = '\t' ∨ c = '\n' ∨ c = '\r' ∨ c = '\x0b' ∨ c = '\x0c'

/-- Python `str.strip()` on a character list. -/
def pyStripList (cs : List Char) : List Char :=
  ((cs.dropWhile pyIsSpace).reverse.dropWhile pyIsSpace).reverse

/-- Python `str.strip()`. -/
def pyStrip (s : String) : String :=
  ⟨pyStripList s.data⟩

/-- Embedding of Python `int(s)` on a string: surrounding whitespace is
allowed, then an optional sign and a nonempty run of digits; anything else
raises `ValueError` (`none`). -/
def pyInt (s : String) : Option Int :=
  match pyStripList s.data with
  | '+' :: rest => (parseDigits rest).map Int.ofNat
  | '-' :: rest => (parseDigits rest).map (fun n => -(n : Int))
  | rest => (parseDigits rest).map Int.ofNat

/-- Embedding of `JolpicaAPIClient.get_current_season_races`, given the
payloads the two `_make_request` calls would deliver: the current-year result
is used if it is well-formed and its race list is nonempty; otherwise the
`"current"` season result is used if well-formed (even when empty); otherwise
the empty list. -/
def get_current_season_races (dYear dCurrent : Option RacesPayload) :
    List RemoteRace :=
  match dYear with
  | some p =>
    if p.races.isEmpty then
      match dCurrent with
      | some q => q.races
      | none => []
    else p.races
  | none =>
    match dCurrent with
    | some q => q.races
    | none => []

/-- One iteration of the `for race in races` loop of
`get_live_race_schedule`: parse the race date (a `ValueError` aborts the whole
`try` block, embedded as `.error ()`), keep only races with
`race_date_obj >= current_date`, and build the processed dictionary. -/
def processRace (today : Date) (r : RemoteRace) :
    Except Unit (Option RaceRecord) :=
  match strptimeDate r.date with
  | none => .error ()
  | some d =>
    if dateLeB today d then
      match pyInt r.round, _determine_race_status r.date today with
      | some rd, some st =>
        .ok (some
          { round := rd
            name := r.raceName
            circuit := r.circuitName
            country := r.country
            date := r.date
            time := r.time.getD "12:00:00"
            race_time_ist := _convert_to_ist (r.time.getD "12:00:00")
            status := st
            location := none })
      | _, _ => .error ()
    else .ok none

/-- The whole filtering loop of `get_live_race_schedule`; an exception at any
element aborts the loop (`.error`), otherwise the kept records in order. -/
def processRaces (today : Date) : List RemoteRace → Except Unit (List RaceRecord)
  | [] => .ok []
  | r :: rest =>
    match processRace today r, processRaces today rest with
    | .error e, _ => .error e
    | .ok none, rs => rs
    | .ok (some rec), .ok l => .ok (rec :: l)
    | .ok (some _), .error e => .error e

/-- Embedding of the SECOND definition of `F1DataManager._get_fallback_schedule`
(source lines 375-438). Python class bodies bind the last definition of a
name, so this definition shadows the earlier one at lines 259-267 and is the
one every runtime call uses. Its `status` fields are the static literal
`"upcoming"`; nothing recomputes them. -/
def _get_fallback_schedule : List RaceRecord :=
  [ { round := 17, name := "Qatar Airways Azerbaijan Grand Prix",
      circuit := "Baku City Circuit", country := "Azerbaijan",
      date := "2025-09-21", time := "17:00", race_time_ist := "17:00",
      status := "upcoming", location := none },
    { round := 18, name := "Singapore Grand Prix",
      circuit := "Marina Bay Street Circuit", country := "Singapore",
      date := "2025-10-05", time := "12:00", race_time_ist := "17:30",
      status := "upcoming", location := none },
    { round := 19, name := "United States Grand Prix",
      circuit := "Circuit of the Americas", country := "United States",
      date := "2025-10-20", time := "19:00", race_time_ist := "04:30",
      status := "upcoming", location := none },
    { round := 20, name := "Mexican Grand Prix",
      circuit := "Autodromo Hermanos Rodriguez", country := "Mexico",
      date := "2025-10-27", time := "20:00", race_time_ist := "06:30",
      status := "upcoming", location := none },
    { round := 21, name := "São Paulo Grand Prix",
      circuit := "Autodromo Jose Carlos Pace", country := "Brazil",
      date := "2025-11-03", time := "18:00", race_time_ist := "04:30",
      status := "upcoming", location := none },
    { round := 22, name := "Las Vegas Grand Prix",
      circuit := "Las Vegas Street Circuit", country := "United States",
      date := "2025-11-23", time := "06:00", race_time_ist := "16:30",
      status := "upcoming", location := none } ]

/-- Embedding of `F1DataManager.get_live_race_schedule`: filter the fetched
races to those dated today or later; on an exception anywhere in the loop, or
when no race survives the filter, return the (shadowing) fallback schedule. -/
def get_live_race_schedule (today : Date) (dYear dCurrent : Option RacesPayload) :
    List RaceRecord :=
  match processRaces today (get_current_season_races dYear dCurrent) with
  | .error _ => _get_fallback_schedule
  | .ok [] => _get_fallback_schedule
  | .ok l => l

/-- True exactly when `get_live_race_schedule` takes its fallback branch:
the processing loop raised, or the filtered sequence is empty (which covers
a failed remote fetch, whose race list is empty). -/
def fallbackTaken (today : Date) (dYear dCurrent : Option RacesPayload) : Bool :=
  match processRaces today (get_current_season_races dYear dCurrent) with
  | .error _ => true
  | .ok l => l.isEmpty

/-- Modelled from the spec: `self.fallback_data["next_race"]`, which the
constructor sets to `config.fallback_data.RACE_SCHEDULE[0]` (the `config`
module is not under `src/`), or to an inline default literal when that list is
empty. The inline default literal of `__init__` is used here; the fields the
literal does not carry (`round`, `time`) are defaulted. No claim's outcome
depends on this value: the branch returning it is proved unreachable. -/
def fallback_next_race : RaceRecord :=
  { round := 0, name := "Next Race", circuit := "TBD", country := "TBD",
    date := "2025-12-31", time := "", race_time_ist := "17:00",
    status := "upcoming", location := none }

/-- The `location`-defaulting step of `get_next_race`: add
`"location": f"{circuit}, {country}"` when the key is absent. -/
def addLocation (r : RaceRecord) : RaceRecord :=
  if r.location.isNone then
    { r with location := some (r.circuit ++ ", " ++ r.country) }
  else r

/-- Embedding of `F1DataManager.get_next_race`: first element of
`get_live_race_schedule()`, with the `location` key added when missing;
the static `fallback_data["next_race"]` when that list is empty. -/
def get_next_race (today : Date) (dYear dCurrent : Option RacesPayload) :
    RaceRecord :=
  match get_live_race_schedule today dYear dCurrent with
  | [] => fallback_next_race
  | r :: _ => addLocation r

/-- Embedding of `F1DataManager.get_race_schedule`: delegates to
`get_live_race_schedule` (whose own handler already catches everything, so the
outer `except` branch is dead). -/
def get_race_schedule (today : Date) (dYear dCurrent : Option RacesPayload) :
    List RaceRecord :=
  get_live_race_schedule today dYear dCurrent

/-! ## F1DataManager: standings and results -/

/-- A `{'name': ...}`-shaped constructor reference inside a remote driver
standing's `Constructors` list; the `name` key is read with
`.get('name', 'Unknown')`. -/
structure RemoteConstructorRef where
  name : Option String
deriving DecidableEq, Repr

/-- One remote driver-standings record, with the fields
`F1DataManager.get_driver_standings` reads: the required keys `position`,
`points`, `wins` and `Constructors`, and `Driver.givenName` /
`Driver.familyName` read with `.get(..., '')`. -/
structure RemoteDriverStanding where
  position : String
  points : String
  wins : String
  givenName : Option String
  familyName : Option String
  constructors : List RemoteConstructorRef
deriving DecidableEq, Repr

/-- Normalized driver-standings entry. The fallback literals additionally
carry a `podiums` key that the normalized records lack, hence the `Option`. -/
structure DriverStanding where
  position : Int
  driver : String
  team : String
  points : Int
  wins : Int
  podiums : Option Int := none
deriving DecidableEq, Repr

/-- The in-class fallback driver standings (source lines 189-193, which
shadow the `config`-sourced assignment made earlier in `__init__`). -/
def fallback_driver_standings : List DriverStanding :=
  [ { position := 1, driver := "Max Verstappen", team := "Red Bull Racing",
      points := 408, wins := 8, podiums := some 15 },
    { position := 2, driver := "Lando Norris", team := "McLaren",
      points := 371, wins := 4, podiums := some 12 },
    { position := 3, driver := "Charles Leclerc", team := "Ferrari",
      points := 356, wins := 3, podiums := some 11 } ]

/-- One iteration of the normalization loop of
`F1DataManager.get_driver_standings`: `Constructors[0]` if nonempty else `{}`,
the concatenated-and-stripped full name, and `int(...)` conversions whose
`ValueError` aborts the whole `try` block (`.error ()`). -/
def processDriverStanding (s : RemoteDriverStanding) :
    Except Unit DriverStanding :=
  let constructorName :=
    match s.constructors.head? with
    | some c => c.name.getD "Unknown"
    | none => "Unknown"
  let full_name := pyStrip ((s.givenName.getD "") ++ " " ++ (s.familyName.getD ""))
  match pyInt s.position, pyInt s.points, pyInt s.wins with
  | some pos, some pts, some w =>
    .ok { position := pos, driver := full_name, team := constructorName,
          points := pts, wins := w, podiums := none }
  | _, _, _ => .error ()

/-- The whole normalization loop over the remote driver standings. -/
def processDriverStandings :
    List RemoteDriverStanding → Except Unit (List DriverStanding)
  | [] => .ok []
  | s :: rest =>
    match processDriverStanding s, processDriverStandings rest with
    | .error e, _ => .error e
    | .ok d, .ok l => .ok (d :: l)
    | .ok _, .error e => .error e

/-- Embedding of `F1DataManager.get_driver_standings`, given the list the
client returned (the client returns `[]` both on transport failure and on a
missing standings table). An empty list, or any exception during
normalization, yields the fallback standings. -/
def get_driver_standings (remote : List RemoteDriverStanding) :
    List DriverStanding :=
  if remote.isEmpty then fallback_driver_standings
  else
    match processDriverStandings remote with
    | .ok l => l
    | .error _ => fallback_driver_standings

/-- One remote constructor-standings record: required keys `position`,
`points`, `wins`, and `Constructor.name`. -/
structure RemoteConstructorStanding where
  position : String
  points : String
  wins : String
  constructorName : String
deriving DecidableEq, Repr

/-- Normalized constructor-standings entry. -/
structure ConstructorStanding where
  position : Int
  team : String
  points : Int
  wins : Int
deriving DecidableEq, Repr

/-- The in-class fallback constructor standings (source lines 196-200). -/
def fallback_constructor_standings : List ConstructorStanding :=
  [ { position := 1, team := "Red Bull Racing", points := 589, wins := 8 },
    { position := 2, team := "McLaren", points := 544, wins := 4 },
    { position := 3, team := "Ferrari", points := 537, wins := 5 } ]

/-- One iteration of the normalization loop of
`F1DataManager.get_constructor_standings`. -/
def processConstructorStanding (s : RemoteConstructorStanding) :
    Except Unit ConstructorStanding :=
  match pyInt s.position, pyInt s.points, pyInt s.wins with
  | some pos, some pts, some w =>
    .ok { position := pos, team := s.constructorName, points := pts, wins := w }
  | _, _, _ => .error ()

/-- The whole normalization loop over the remote constructor standings. -/
def processConstructorStandings :
    List RemoteConstructorStanding → Except Unit (List ConstructorStanding)
  | [] => .ok []
  | s :: rest =>
    match processConstructorStanding s, processConstructorStandings rest with
    | .error e, _ => .error e
    | .ok d, .ok l => .ok (d :: l)
    | .ok _, .error e => .error e

/-- Embedding of `F1DataManager.get_constructor_standings`. -/
def get_constructor_standings (remote : List RemoteConstructorStanding) :
    List ConstructorStanding :=
  if remote.isEmpty then fallback_constructor_standings
  else
    match processConstructorStandings remote with
    | .ok l => l
    | .error _ => fallback_constructor_standings

/-- One row of a race-results table. -/
structure RaceResultEntry where
  position : Int
  driver : String
  team : String
  time : String
deriving DecidableEq, Repr

/-- A race-results set, as returned by `get_latest_race_results`. -/
structure RaceResultSet where
  race_name : String
  circuit : String
  date : String
  results : List RaceResultEntry
deriving DecidableEq, Repr

/-- Embedding of `F1DataManager._get_fallback_race_results`. -/
def _get_fallback_race_results : RaceResultSet :=
  { race_name := "Italian Grand Prix", circuit := "Monza", date := "2025-09-01",
    results :=
      [ { position := 1, driver := "Max Verstappen", team := "Red Bull Racing",
          time := "1:32:11.000" },
        { position := 2, driver := "Charles Leclerc", team := "Ferrari",
          time := "+4.200s" },
        { position := 3, driver := "Lando Norris", team := "McLaren",
          time := "+7.581s" },
        { position := 4, driver := "Lewis Hamilton", team := "Ferrari",
          time := "+12.341s" },
        { position := 5, driver := "Fernando Alonso", team := "Aston Martin",
          time := "+18.902s" },
        { position := 6, driver := "Oscar Piastri", team := "McLaren",
          time := "+21.445s" } ] }

/-- Embedding of `F1DataManager.get_latest_race_results`: the remote path is
intentionally not taken; the fallback result set is always returned. -/
def get_latest_race_results : RaceResultSet :=
  _get_fallback_race_results

/-! ## F1DataManager: mutable attribute state -/

/-- The instance attributes of `F1DataManager` that `mark_race_completed`
touches. `race_schedule` is `Option`-wrapped to record attribute presence:
`none` means the attribute was never assigned, so reading it raises
`AttributeError`. -/
structure ManagerState where
  completed_races : List RaceRecord
  race_schedule : Option (List RaceRecord)
deriving DecidableEq, Repr

/-- The state `F1DataManager.__init__` establishes for these attributes:
`completed_races = []`, and no assignment to `race_schedule` anywhere in the
class (line 442 is its only occurrence, as a read). -/
def initManagerState : ManagerState :=
  { completed_races := [], race_schedule := none }

/-- The `for race in self.race_schedule` loop of `mark_race_completed`: mark
the first race of the given round as completed (in place) and collect it. -/
def markLoop : List RaceRecord → Int → List RaceRecord × Option RaceRecord
  | [], _ => ([], none)
  | r :: rest, race_round =>
    if r.round = race_round then
      ({ r with status := "completed" } :: rest,
       some { r with status := "completed" })
    else
      let (rest', found) := markLoop rest race_round
      (r :: rest', found)

/-- Embedding of `F1DataManager.mark_race_completed`: reading the never-assigned
`self.race_schedule` raises `AttributeError`; were the attribute present, the
first matching race would be marked completed and appended to
`completed_races`. -/
def mark_race_completed (st : ManagerState) (race_round : Int) :
    Except String ManagerState :=
  match st.race_schedule with
  | none => .error "AttributeError"
  | some sched =>
    let (sched', found) := markLoop sched race_round
    .ok { completed_races :=
            st.completed_races ++ (match found with
              | some r => [r]
              | none => [])
          race_schedule := some sched' }

/-! ## Concrete fixtures used by witnesses and counterexamples -/

/-- A well-formed remote race record used as concrete input. -/
def sampleRemoteRace : RemoteRace :=
  { round := "1", raceName := "Test GP", circuitName := "Circuit X",
    country := "Countryland", date := "2025-06-01", time := some "14:00:00Z" }

/-- A remote payload holding the single sample race. -/
def samplePayload : RacesPayload :=
  { races := [sampleRemoteRace] }

/-! ## Order lemmas on dates -/

/-- Unfolding of the strict date order into arithmetic. -/
lemma dateLtB_eq_true_iff (a b : Date) :
    dateLtB a b = true ↔
      (a.year < b.year ∨ (a.year = b.year ∧
        (a.month < b.month ∨ (a.month = b.month ∧ a.day < b.day)))) := by
  simp [dateLtB]

/-- The strict date order is irreflexive. -/
lemma dateLtB_irrefl (a : Date) : dateLtB a a = false := by
  simp [dateLtB]

/-- The strict date order is asymmetric. -/
lemma dateLtB_asymm (a b : Date) (h : dateLtB a b = true) :
    dateLtB b a = false := by
  rcases a with ⟨y1, m1, d1⟩
  rcases b with ⟨y2, m2, d2⟩
  simp [dateLtB] at h ⊢
  omega

/-- Distinct dates are strictly comparable. -/
lemma dateLtB_connex (a b : Date) (hne : a ≠ b) :
    dateLtB a b = true ∨ dateLtB b a = true := by
  rcases a with ⟨y1, m1, d1⟩
  rcases b with ⟨y2, m2, d2⟩
  simp [dateLtB, Date.mk.injEq] at hne ⊢
  omega

/-! ## Claim theorems -/

/-- C7: `_determine_race_status` is a pure function of the parsed race date and
today's date (purity is structural: it is a Lean function of exactly these two
values, using no other state and no time of day). Whenever the race-date
string parses, the result is exactly one of `"upcoming"`, `"live"`,
`"completed"`, and each value is characterized by the date comparison: a
future date gives `"upcoming"`, the same day gives `"live"`, a past date
gives `"completed"`. -/
theorem c7_status_classifier_pure (s : String) (today d : Date)
    (h : strptimeDate s = some d) :
    (_determine_race_status s today = some "upcoming" ∨
     _determine_race_status s today = some "live" ∨
     _determine_race_status s today = some "completed") ∧
    (_determine_race_status s today = some "upcoming" ↔ dateLtB today d = true) ∧
    (_determine_race_status s today = some "live" ↔ d = today) ∧
    (_determine_race_status s today = some "completed" ↔ dateLtB d today = true) := by
  have hds : _determine_race_status s today =
      some (if dateLtB today d then "upcoming"
            else if d = today then "live" else "completed") := by
    unfold _determine_race_status
    rw [h]
  rw [hds]
  by_cases h1 : dateLtB today d = true
  · rw [if_pos h1]
    refine ⟨Or.inl rfl, ⟨fun _ => h1, fun _ => rfl⟩, ?_, ?_⟩
    · constructor
      · intro he; exact absurd he (by decide)
      · intro he; rw [he, dateLtB_irrefl] at h1; exact Bool.noConfusion h1
    · constructor
      · intro he; exact absurd he (by decide)
      · intro hlt
        have hasym := dateLtB_asymm d today hlt
        rw [h1] at hasym
        exact Bool.noConfusion hasym
  · rw [if_neg h1]
    by_cases h2 : d = today
    · rw [if_pos h2]
      refine ⟨Or.inr (Or.inl rfl), ?_, ⟨fun _ => h2, fun _ => rfl⟩, ?_⟩
      · constructor
        · intro he; exact absurd he (by decide)
        · intro hlt; exact absurd hlt h1
      · constructor
        · intro he; exact absurd he (by decide)
        · intro hlt; rw [h2, dateLtB_irrefl] at hlt; exact Bool.noConfusion hlt
    · rw [if_neg h2]
      have h3 : dateLtB d today = true := by
        rcases dateLtB_connex d today h2 with hc | hc
        · exact hc
        · exact absurd hc h1
      refine ⟨Or.inr (Or.inr rfl), ?_, ?_, ⟨fun _ => h3, fun _ => rfl⟩⟩
      · constructor
        · intro he; exact absurd he (by decide)
        · intro hlt; exact absurd hlt h1
      · constructor
        · intro he; exact absurd he (by decide)
        · intro he; exact absurd he h2

/-- C7 witness: the theorem applied at the concrete pair
(`"2025-09-21"`, 2025-09-21), whose status is `"live"`. -/
theorem c7_status_classifier_pure_witness :
    _determine_race_status "2025-09-21" ⟨2025, 9, 21⟩ = some "live" :=
  (c7_status_classifier_pure "2025-09-21" ⟨2025, 9, 21⟩ ⟨2025, 9, 21⟩
    (by decide)).2.2.1.mpr rfl

/-- C3: evaluation of `_convert_to_ist` at the claim's inputs. On the
time-of-day input `"14:00:00Z"` the code returns the default `"17:00"`, not
the claimed `"19:30"`: after the `Z` replacement, `datetime.fromisoformat`
receives `"14:00:00+00:00"`, which has no date part and raises `ValueError`,
so the bare `except` returns the default. On `"garbage"` it returns
`"17:00"` as claimed. The third conjunct shows the +5:30 arithmetic the
method was written for does produce `"19:30"` once the input carries the date
part `fromisoformat` requires, locating the defect in the parse step. -/
theorem c3_convert_to_ist_evaluation :
    _convert_to_ist "14:00:00Z" = "17:00" ∧
    _convert_to_ist "garbage" = "17:00" ∧
    _convert_to_ist "2025-06-01T14:00:00Z" = "19:30" :=
  ⟨rfl, rfl, rfl⟩

/-- C10: on a freshly constructed `F1DataManager`, `mark_race_completed`
raises `AttributeError` for every `race_round`, because `self.race_schedule`
is read at line 442 but assigned nowhere in the class; in particular no
execution reaches the `completed_races.append` call, so `completed_races`
is never mutated. -/
theorem c10_mark_race_completed_attribute_error (race_round : Int) :
    mark_race_completed initManagerState race_round = .error "AttributeError" :=
  rfl

/-- C4 counterexample: the claim's unconditional "at most one outbound HTTP
request between them" fails when the first call's fetch fails, because
`_make_request` caches nothing on failure. Concretely: two calls for endpoint
`"2025"` at times 0 and 10 with TTL 300 share the time bucket 0, the first
times out (returning `None` and leaving the cache empty), and the second —
running on exactly the cache state the first call left — issues a second
outbound request, for a total of two. -/
theorem c4_cache_counterexample :
    (0 : Nat) / 300 = (10 : Nat) / 300 ∧
    issuedCount (_make_request ([] : List (String × Nat)) "2025" 0 300 .timeout) +
      issuedCount (_make_request ([] : List (String × Nat)) "2025" 10 300 .timeout) = 2 :=
  ⟨rfl, rfl⟩

/-- C4 (amended): two `_make_request` calls for the same endpoint whose time
buckets `floor(now / ttl)` are equal issue at most one outbound HTTP request
provided the first call returns a payload (a cache hit, or a successful fetch
— which stores the parsed payload under the key `(endpoint, bucket)`): the
second call then returns that cached payload with no network access, whatever
its own transport outcome would have been. When the first call's fetch fails,
nothing is cached and the second call issues its own request. -/
theorem c4_cache_single_fetch_amended {α : Type} (cache : List (String × α))
    (endpoint : String) (now1 now2 ttl : Nat) (net1 net2 : NetOutcome α)
    (p : α) (cache1 : List (String × α)) (b1 : Bool)
    (hbucket : now1 / ttl = now2 / ttl)
    (h1 : _make_request cache endpoint now1 ttl net1 = .ok (some p, cache1, b1)) :
    cacheLookup (_get_cache_key endpoint now2 ttl) cache1 = some p ∧
    _make_request cache1 endpoint now2 ttl net2 = .ok (some p, cache1, false) := by
  have hkey : _get_cache_key endpoint now2 ttl = _get_cache_key endpoint now1 ttl := by
    unfold _get_cache_key
    rw [hbucket]
  simp only [_make_request] at h1
  cases hl : cacheLookup (_get_cache_key endpoint now1 ttl) cache with
  | some v =>
    rw [hl] at h1
    simp only [Except.ok.injEq, Prod.mk.injEq, Option.some.injEq] at h1
    obtain ⟨hv, hc, _⟩ := h1
    subst hv
    subst hc
    constructor
    · rw [hkey]
      exact hl
    · simp only [_make_request]
      rw [hkey, hl]
  | none =>
    rw [hl] at h1
    cases net1 with
    | ok payload =>
      simp only [Except.ok.injEq, Prod.mk.injEq, Option.some.injEq] at h1
      obtain ⟨hv, hc, _⟩ := h1
      subst hv
      subst hc
      constructor
      · rw [hkey]
        simp [cacheLookup]
      · simp only [_make_request]
        rw [hkey]
        simp [cacheLookup]
    | timeout => simp at h1
    | connectionError => simp at h1
    | httpError status => simp at h1
    | malformedBody => simp at h1

/-- C4 witness: the amended theorem applied concretely — the first call at
time 0 fetches the payload 42 for endpoint `"2025"` successfully, and the
second call at time 10 (same bucket, TTL 300) is served from cache. -/
theorem c4_cache_single_fetch_amended_witness :
    cacheLookup (_get_cache_key "2025" 10 300) [("2025_0", (42 : Nat))] = some 42 ∧
    _make_request [("2025_0", (42 : Nat))] "2025" 10 300 (.timeout) =
      .ok (some 42, [("2025_0", 42)], false) :=
  c4_cache_single_fetch_amended [] "2025" 0 10 300 (.ok 42) .timeout 42
    [("2025_0", 42)] true rfl rfl

/-- C5: `_make_request` never lets an exception escape: for every cache state,
endpoint, time and transport outcome it returns an `.ok` value (the four
transport failures — timeout, connection failure, non-2xx HTTP status, and a
malformed response body — all raise subclasses of
`requests.exceptions.RequestException`, which the method's `except` clause
catches). Moreover, whenever a request is actually issued (cache miss) and
the transport fails, the returned value is `None` and the cache is left
unchanged. -/
theorem c5_make_request_no_exception {α : Type} (cache : List (String × α))
    (endpoint : String) (now ttl : Nat) (net : NetOutcome α) :
    (∃ res, _make_request cache endpoint now ttl net = .ok res) ∧
    (net.isFailure = true →
      cacheLookup (_get_cache_key endpoint now ttl) cache = none →
      _make_request cache endpoint now ttl net = .ok (none, cache, true)) := by
  constructor
  · cases hl : cacheLookup (_get_cache_key endpoint now ttl) cache with
    | some v =>
      exact ⟨(some v, cache, false), by simp only [_make_request]; rw [hl]⟩
    | none =>
      cases net with
      | ok payload =>
        exact ⟨(some payload, (_get_cache_key endpoint now ttl, payload) :: cache,
                true), by simp only [_make_request]; rw [hl]⟩
      | timeout => exact ⟨(none, cache, true), by simp only [_make_request]; rw [hl]⟩
      | connectionError =>
        exact ⟨(none, cache, true), by simp only [_make_request]; rw [hl]⟩
      | httpError status =>
        exact ⟨(none, cache, true), by simp only [_make_request]; rw [hl]⟩
      | malformedBody =>
        exact ⟨(none, cache, true), by simp only [_make_request]; rw [hl]⟩
  · intro hf hl
    cases net with
    | ok payload => exact Bool.noConfusion hf
    | timeout => simp only [_make_request]; rw [hl]
    | connectionError => simp only [_make_request]; rw [hl]
    | httpError status => simp only [_make_request]; rw [hl]
    | malformedBody => simp only [_make_request]; rw [hl]

/-- C5 witness: the theorem applied at a concrete timed-out request on an
empty cache. -/
theorem c5_make_request_no_exception_witness :
    _make_request ([] : List (String × Nat)) "2025" 0 300 .timeout =
      .ok (none, [], true) :=
  (c5_make_request_no_exception [] "2025" 0 300 .timeout).2 rfl rfl

/-- C1 counterexample: with the remote fetch failing and today = 2026-01-01,
the fallback branch is taken, but the returned statuses are NOT the
classifier's values: the second (shadowing) `_get_fallback_schedule`
definition returns its static literal `"upcoming"` for every race, while
`_determine_race_status` applied to the first fallback race's date
(2025-09-21) and today yields `"completed"`. The first
`_get_fallback_schedule` definition, the one that recomputes `status`, is
shadowed by the later definition of the same name in the class body and is
dead code. -/
theorem c1_fallback_status_counterexample :
    fallbackTaken ⟨2026, 1, 1⟩ none none = true ∧
    ¬ ((get_live_race_schedule ⟨2026, 1, 1⟩ none none).all
        (fun r => _determine_race_status r.date ⟨2026, 1, 1⟩ == some r.status) = true) := by
  constructor
  · rfl
  · decide

/-- C1 (amended): whenever `get_live_race_schedule` takes its fallback branch
(the remote fetch failed, the loop raised, or no race survived the filter),
the result is the literal schedule of the second — shadowing —
`_get_fallback_schedule` definition, in which every race's `status` field is
the static literal `"upcoming"`; statuses are not recomputed against today's
date. -/
theorem c1_fallback_static_status_amended (today : Date)
    (dYear dCurrent : Option RacesPayload)
    (h : fallbackTaken today dYear dCurrent = true) :
    get_live_race_schedule today dYear dCurrent = _get_fallback_schedule ∧
    _get_fallback_schedule.all (fun r => r.status == "upcoming") = true := by
  constructor
  · unfold fallbackTaken at h
    unfold get_live_race_schedule
    cases hp : processRaces today (get_current_season_races dYear dCurrent) with
    | error e => rfl
    | ok l =>
      rw [hp] at h
      cases l with
      | nil => rfl
      | cons a as => simp at h
  · decide

/-- C1 witness: the amended theorem applied at the failing-fetch input with
today = 2026-01-01. -/
theorem c1_fallback_static_status_amended_witness :
    get_live_race_schedule ⟨2026, 1, 1⟩ none none = _get_fallback_schedule ∧
    _get_fallback_schedule.all (fun r => r.status == "upcoming") = true :=
  c1_fallback_static_status_amended ⟨2026, 1, 1⟩ none none rfl

/-- C2 counterexample: when the remote fetch fails and today = 2026-01-01,
`get_live_race_schedule` returns the static fallback schedule, whose first
race is dated 2025-09-21 — earlier than today. The spec's own §4.2 documents
this staleness; its §8 universal claim does not hold on the fallback path. -/
theorem c2_no_past_races_counterexample :
    ¬ ((get_live_race_schedule ⟨2026, 1, 1⟩ none none).all
        (fun r =>
          match strptimeDate r.date with
          | some d => dateLeB ⟨2026, 1, 1⟩ d
          | none => false) = true) := by
  decide

/-- Soundness of the filtering loop: every record the loop keeps has a
parseable date that is on or after today (the loop's
`race_date_obj >= current_date` guard). -/
lemma processRaces_all_dateLe (today : Date) :
    ∀ (rs : List RemoteRace) (l : List RaceRecord),
      processRaces today rs = .ok l →
      l.all (fun r =>
        match strptimeDate r.date with
        | some d => dateLeB today d
        | none => false) = true := by
  intro rs
  induction rs with
  | nil =>
    intro l h
    simp only [processRaces, Except.ok.injEq] at h
    rw [← h]
    rfl
  | cons r rest ih =>
    intro l h
    unfold processRaces at h
    cases hpr : processRace today r with
    | error e =>
      rw [hpr] at h
      exact Except.noConfusion h
    | ok orec =>
      rw [hpr] at h
      cases orec with
      | none => exact ih l h
      | some rec =>
        cases hrest : processRaces today rest with
        | error e =>
          rw [hrest] at h
          exact Except.noConfusion h
        | ok l2 =>
          rw [hrest] at h
          injection h with h2
          rw [← h2]
          rw [List.all_cons, Bool.and_eq_true]
          refine ⟨?_, ih l2 hrest⟩
          unfold processRace at hpr
          cases hd : strptimeDate r.date with
          | none => simp [hd] at hpr
          | some d =>
            simp only [hd] at hpr
            by_cases hle : dateLeB today d = true
            · rw [if_pos hle] at hpr
              cases hpi : pyInt r.round with
              | none =>
                cases hds : _determine_race_status r.date today <;>
                  simp [hpi, hds] at hpr
              | some rd =>
                cases hds : _determine_race_status r.date today with
                | none => simp [hpi, hds] at hpr
                | some st =>
                  simp only [hpi, hds, Except.ok.injEq, Option.some.injEq] at hpr
                  rw [← hpr]
                  simp only [hd]
                  exact hle
            · rw [if_neg hle] at hpr
              simp at hpr

/-- C2 (amended): on the non-fallback path — whenever the filtering loop
completes without an exception and keeps at least one race — every race in
the sequence returned by `get_live_race_schedule` has a (parseable) date on
or after today. Only the static fallback schedule can carry dates earlier
than today. -/
theorem c2_no_past_races_amended (today : Date)
    (dYear dCurrent : Option RacesPayload) (l : List RaceRecord)
    (hp : processRaces today (get_current_season_races dYear dCurrent) = .ok l)
    (hne : l ≠ []) :
    (get_live_race_schedule today dYear dCurrent).all
      (fun r =>
        match strptimeDate r.date with
        | some d => dateLeB today d
        | none => false) = true := by
  have hres : get_live_race_schedule today dYear dCurrent = l := by
    unfold get_live_race_schedule
    rw [hp]
    cases l with
    | nil => exact absurd rfl hne
    | cons a as => rfl
  rw [hres]
  exact processRaces_all_dateLe today _ l hp

/-- C2 witness: the amended theorem applied to a one-race payload dated
2025-06-01 with today = 2025-01-01. -/
theorem c2_no_past_races_amended_witness :
    (get_live_race_schedule ⟨2025, 1, 1⟩ (some samplePayload) none).all
      (fun r =>
        match strptimeDate r.date with
        | some d => dateLeB ⟨2025, 1, 1⟩ d
        | none => false) = true :=
  c2_no_past_races_amended ⟨2025, 1, 1⟩ (some samplePayload) none
    [{ round := 1, name := "Test GP", circuit := "Circuit X",
       country := "Countryland", date := "2025-06-01", time := "14:00:00Z",
       race_time_ist := "17:00", status := "upcoming", location := none }]
    rfl (by decide)

/-- C6: when the remote client returns `None` for every request (so the race
list and both standings lists it hands over are empty), every public
repository method still returns its non-empty, well-formed fallback value.
All these embedded methods are total functions into non-optional types, which
is the embedding of "raises no exception and propagates no None": in the
source, every exceptional path inside them is consumed by their own
`try/except` or by the empty-check branches shown here. -/
theorem c6_fallback_guarantee (today : Date) :
    get_live_race_schedule today none none = _get_fallback_schedule ∧
    _get_fallback_schedule ≠ [] ∧
    get_race_schedule today none none = _get_fallback_schedule ∧
    get_next_race today none none =
      { round := 17, name := "Qatar Airways Azerbaijan Grand Prix",
        circuit := "Baku City Circuit", country := "Azerbaijan",
        date := "2025-09-21", time := "17:00", race_time_ist := "17:00",
        status := "upcoming", location := some "Baku City Circuit, Azerbaijan" } ∧
    get_driver_standings [] = fallback_driver_standings ∧
    fallback_driver_standings ≠ [] ∧
    get_constructor_standings [] = fallback_constructor_standings ∧
    fallback_constructor_standings ≠ [] ∧
    get_latest_race_results.results ≠ [] := by
  refine ⟨rfl, by decide, rfl, rfl, rfl, by decide, rfl, by decide, by decide⟩

/-- C8: `get_driver_standings` normalizes every remote record's driver name
to `strip(givenName + " " + familyName)`; concretely, givenName `"Lewis"`
with familyName `"Hamilton"` yields `"Lewis Hamilton"`, and an empty
givenName with familyName `"Hamilton"` yields `"Hamilton"`. -/
theorem c8_driver_name_normalization :
    (∀ (s : RemoteDriverStanding) (rec : DriverStanding),
      processDriverStanding s = .ok rec →
      rec.driver = pyStrip ((s.givenName.getD "") ++ " " ++ (s.familyName.getD ""))) ∧
    (get_driver_standings
        [{ position := "1", points := "400", wins := "10",
           givenName := some "Lewis", familyName := some "Hamilton",
           constructors := [⟨some "Mercedes"⟩] }]).map (fun d => d.driver) =
      ["Lewis Hamilton"] ∧
    (get_driver_standings
        [{ position := "1", points := "400", wins := "10",
           givenName := some "", familyName := some "Hamilton",
           constructors := [⟨some "Mercedes"⟩] }]).map (fun d => d.driver) =
      ["Hamilton"] := by
  refine ⟨?_, rfl, rfl⟩
  intro s rec h
  simp only [processDriverStanding] at h
  split at h
  · injection h with h2
    rw [← h2]
  · exact Except.noConfusion h

/-- C8 witness: the normalization equation of the theorem applied at the
concrete Lewis Hamilton record. -/
theorem c8_driver_name_normalization_witness :
    ({ position := 1, driver := "Lewis Hamilton", team := "Mercedes",
       points := 400, wins := 10, podiums := none } : DriverStanding).driver =
      pyStrip (((some "Lewis").getD "") ++ " " ++ ((some "Hamilton").getD "")) :=
  c8_driver_name_normalization.1
    { position := "1", points := "400", wins := "10",
      givenName := some "Lewis", familyName := some "Hamilton",
      constructors := [⟨some "Mercedes"⟩] }
    { position := 1, driver := "Lewis Hamilton", team := "Mercedes",
      points := 400, wins := 10, podiums := none }
    rfl

/-- C9 counterexample: `get_next_race` does not return the first element of
`get_live_race_schedule()` verbatim: it adds a `location` key first. With a
one-race payload (no `location` key on the processed record), the returned
record differs from the schedule's first element. -/
theorem c9_next_race_counterexample :
    ¬ (some (get_next_race ⟨2025, 1, 1⟩ (some samplePayload) none) =
        (get_live_race_schedule ⟨2025, 1, 1⟩ (some samplePayload) none).head?) := by
  decide

/-- C9 (amended): `get_next_race` returns the first element of
`get_live_race_schedule()` augmented with a `location` field
(`"{circuit}, {country}"`) when that field is absent; and the
empty-sequence branch returning `fallback_data["next_race"]` verbatim is
unreachable, because `get_live_race_schedule` always returns a non-empty list
(its fallback schedule is non-empty). -/
theorem c9_next_race_amended (today : Date)
    (dYear dCurrent : Option RacesPayload) :
    get_live_race_schedule today dYear dCurrent ≠ [] ∧
    (get_live_race_schedule today dYear dCurrent).head?.map addLocation =
      some (get_next_race today dYear dCurrent) := by
  have hne : get_live_race_schedule today dYear dCurrent ≠ [] := by
    unfold get_live_race_schedule
    cases hp : processRaces today (get_current_season_races dYear dCurrent) with
    | error e => exact show _get_fallback_schedule ≠ [] by decide
    | ok l =>
      cases l with
      | nil => exact show _get_fallback_schedule ≠ [] by decide
      | cons a as => exact List.cons_ne_nil a as
  refine ⟨hne, ?_⟩
  cases hl : get_live_race_schedule today dYear dCurrent with
  | nil => exact absurd hl hne
  | cons a as =>
    unfold get_next_race
    rw [hl]
    rfl
